import Mathlib

/-!
Shallow embedding of `pushecr` (src/main.go): a CLI that loads a YAML
profile configuration, validates one selected profile, and runs four
external docker/aws steps (authenticate, build, tag, push) in order.

Strings are Lean `String`; Go's zero value for a missing YAML string
field is the empty string.  External processes are modelled by the
argument vector handed to `exec.Command` and by an outcome oracle
telling which steps would succeed.
-/

namespace PushEcr

/-- `ECRConfig` from src/main.go (fields region, account_id, repository,
image_tag). -/
structure ECRConfig where
  region : String
  accountID : String
  repository : String
  imageTag : String
  deriving Repr, DecidableEq

/-- `DockerConfig` from src/main.go (field image_name). -/
structure DockerConfig where
  imageName : String
  deriving Repr, DecidableEq

/-- `ProfileConfig` from src/main.go: an ECR section and a docker section. -/
structure ProfileConfig where
  ecr : ECRConfig
  docker : DockerConfig
  deriving Repr, DecidableEq

/-- `Config` from src/main.go: profiles keyed by name.  The Go map is
embedded as an association list; lookup is by exact key. -/
structure Config where
  profiles : List (String × ProfileConfig)
  deriving Repr, DecidableEq

/-- Go's `regexp.MatchString("^\d{12}$", s)`: the whole string is exactly
twelve runes, each in the ASCII digit class `\d` = [0-9]. -/
def accountIdMatches (s : String) : Bool :=
  s.data.length == 12 && s.data.all Char.isDigit

/-- `validateConfig` from src/main.go: first failing check wins, the
error carries the Go error message.  The regexp on `^\d{12}$` always
compiles, so the `err != nil` branch of `MatchString` never fires. -/
def validateConfig (config : ProfileConfig) : Except String Unit :=
  if config.ecr.region == "" then
    .error "ecr.region is required"
  else if config.ecr.accountID == "" then
    .error "ecr.account_id is required"
  else if !(accountIdMatches config.ecr.accountID) then
    .error "ecr.account_id debe ser una cadena de 12 dígitos"
  else if config.ecr.repository == "" then
    .error "ecr.repository is required"
  else if config.docker.imageName == "" then
    .error "docker.image_name is required"
  else
    .ok ()

/-- The registry host built in `authenticate`:
`fmt.Sprintf("%s.dkr.ecr.%s.amazonaws.com", AccountID, Region)`. -/
def ecrRepo (ecr : ECRConfig) : String :=
  ecr.accountID ++ ".dkr.ecr." ++ ecr.region ++ ".amazonaws.com"

/-- The argument vector of `exec.Command` in `authenticate`:
`sh -c "aws ecr get-login-password --region <region> | docker login
--username AWS --password-stdin <ecrRepo>"`. -/
def authenticateCommand (ecr : ECRConfig) : List String :=
  ["sh", "-c",
    "aws ecr get-login-password --region " ++ ecr.region ++
      " | docker login --username AWS --password-stdin " ++ ecrRepo ecr]

/-- The argument vector of `exec.Command` in `build`:
`docker build -t <image_name> .`. -/
def buildCommand (docker : DockerConfig) : List String :=
  ["docker", "build", "-t", docker.imageName, "."]

/-- The local reference built in `tag`:
`fmt.Sprintf("%s:%s", ImageName, ImageTag)`. -/
def tagLocalImage (config : ProfileConfig) : String :=
  config.docker.imageName ++ ":" ++ config.ecr.imageTag

/-- The remote reference built in `tag`:
`fmt.Sprintf("%s.dkr.ecr.%s.amazonaws.com/%s:%s", AccountID, Region,
Repository, ImageTag)`. -/
def tagEcrImage (config : ProfileConfig) : String :=
  config.ecr.accountID ++ ".dkr.ecr." ++ config.ecr.region ++
    ".amazonaws.com/" ++ config.ecr.repository ++ ":" ++ config.ecr.imageTag

/-- The argument vector of `exec.Command` in `tag`:
`docker tag <localImage> <ecrImage>`. -/
def tagCommand (config : ProfileConfig) : List String :=
  ["docker", "tag", tagLocalImage config, tagEcrImage config]

/-- The remote reference built in `push` (recomputed there, independently
of `tag`): `fmt.Sprintf("%s.dkr.ecr.%s.amazonaws.com/%s:%s", AccountID,
Region, Repository, ImageTag)`. -/
def pushEcrImage (config : ProfileConfig) : String :=
  config.ecr.accountID ++ ".dkr.ecr." ++ config.ecr.region ++
    ".amazonaws.com/" ++ config.ecr.repository ++ ":" ++ config.ecr.imageTag

/-- The argument vector of `exec.Command` in `push`:
`docker push <ecrImage>`. -/
def pushCommand (config : ProfileConfig) : List String :=
  ["docker", "push", pushEcrImage config]

/-! ### Configuration loading

`loadConfig` in src/main.go hands viper the file plus two defaults,
`profiles.dev.ecr.region = "us-east-1"` and
`profiles.dev.ecr.image_tag = "latest"`, and unmarshals.  The YAML
document is embedded as a record of optional string fields; viper's
merge semantics give a key its file value when present, the registered
default when the key is one of the two `profiles.dev.ecr` defaults, and
Go's zero value `""` otherwise. -/

/-- A raw `ecr` YAML section: each field may be present or absent. -/
structure RawECRConfig where
  region : Option String
  accountID : Option String
  repository : Option String
  imageTag : Option String
  deriving Repr, DecidableEq

/-- A raw `docker` YAML section. -/
structure RawDockerConfig where
  imageName : Option String
  deriving Repr, DecidableEq

/-- A raw profile entry of the YAML document. -/
structure RawProfileConfig where
  ecr : RawECRConfig
  docker : RawDockerConfig
  deriving Repr, DecidableEq

/-- The raw YAML document: profile entries keyed by name. -/
structure RawConfig where
  profiles : List (String × RawProfileConfig)
  deriving Repr, DecidableEq

/-- Decoding of one profile entry: under the literal key "dev" the two
registered defaults fill in a missing region and image tag; every other
missing string field decodes to Go's zero value `""`. -/
def decodeProfile (name : String) (raw : RawProfileConfig) : ProfileConfig :=
  if name == "dev" then
    { ecr := { region := raw.ecr.region.getD "us-east-1"
             , accountID := raw.ecr.accountID.getD ""
             , repository := raw.ecr.repository.getD ""
             , imageTag := raw.ecr.imageTag.getD "latest" }
    , docker := { imageName := raw.docker.imageName.getD "" } }
  else
    { ecr := { region := raw.ecr.region.getD ""
             , accountID := raw.ecr.accountID.getD ""
             , repository := raw.ecr.repository.getD ""
             , imageTag := raw.ecr.imageTag.getD "" }
    , docker := { imageName := raw.docker.imageName.getD "" } }

/-- The profile viper materialises under "dev" when the document has no
such entry at all: only the two defaults are set. -/
def devDefaultProfile : ProfileConfig :=
  { ecr := { region := "us-east-1", accountID := ""
           , repository := "", imageTag := "latest" }
  , docker := { imageName := "" } }

/-- `loadConfig` from src/main.go on an already-parsed document: decode
every entry, and, per viper's default merging, materialise a "dev" entry
from the defaults alone when the document lacks one. -/
def loadConfig (raw : RawConfig) : Config :=
  { profiles :=
      raw.profiles.map (fun entry => (entry.1, decodeProfile entry.1 entry.2)) ++
        (if raw.profiles.any (fun entry => entry.1 == "dev") then []
         else [("dev", devDefaultProfile)]) }

/-- Go's `config.Profiles[name]` map lookup, on the association list. -/
def findProfile {α : Type} (profiles : List (String × α)) (name : String) :
    Option α :=
  match profiles with
  | [] => none
  | (k, v) :: rest => if k == name then some v else findProfile rest name

/-! ### The entry point pipeline

`main` in src/main.go: load, select the profile, validate, then run
authenticate, build, tag, push, exiting with status 1 at the first
failure and 0 after full success.  External steps are abstracted by an
outcome oracle `Step → Bool`; the run is observed as the list of events
(validator call, step invocations) plus the exit status. -/

/-- The four external-process steps of the orchestrator. -/
inductive Step
  | authenticate
  | build
  | tag
  | push
  deriving Repr, DecidableEq

/-- An observable event of a run. -/
inductive Event
  | validated
  | ran (s : Step)
  deriving Repr, DecidableEq

/-- The fixed step order of `main`. -/
def stepOrder : List Step := [.authenticate, .build, .tag, .push]

/-- Run steps in order, stopping at the first failure: returns the
invoked steps and whether all of them succeeded. -/
def runSteps (outcome : Step → Bool) : List Step → List Step × Bool
  | [] => ([], true)
  | s :: rest =>
    if outcome s then
      let result := runSteps outcome rest
      (s :: result.1, result.2)
    else
      ([s], false)

/-- `main` from src/main.go after flag parsing: the load result, the
selected profile name and the step outcomes determine the event trace
and the exit status. -/
def mainRun (loaded : Except String Config) (profile : String)
    (outcome : Step → Bool) : List Event × Nat :=
  match loaded with
  | .error _ => ([], 1)
  | .ok config =>
    match findProfile config.profiles profile with
    | none => ([], 1)
    | some profileConfig =>
      match validateConfig profileConfig with
      | .error _ => ([Event.validated], 1)
      | .ok _ =>
        let result := runSteps outcome stepOrder
        (Event.validated :: result.1.map Event.ran,
         if result.2 then 0 else 1)

/-! ### Reference data for concrete runs -/

/-- The end-to-end sample profile of the spec: region us-east-1, account
123456789012, repository myrepo, tag latest, image myapp. -/
def sampleProfile : ProfileConfig :=
  { ecr := { region := "us-east-1", accountID := "123456789012"
           , repository := "myrepo", imageTag := "latest" }
  , docker := { imageName := "myapp" } }

/-- The ordered checks of `validateConfig` paired with their error
messages: a check's Bool is `true` when it passes. -/
def validationChecks (p : ProfileConfig) : List (Bool × String) :=
  [ (!(p.ecr.region == ""), "ecr.region is required")
  , (!(p.ecr.accountID == ""), "ecr.account_id is required")
  , (accountIdMatches p.ecr.accountID,
      "ecr.account_id debe ser una cadena de 12 dígitos")
  , (!(p.ecr.repository == ""), "ecr.repository is required")
  , (!(p.docker.imageName == ""), "docker.image_name is required") ]

/-- The error of the first failing check, if any. -/
def firstFailure : List (Bool × String) → Except String Unit
  | [] => .ok ()
  | (ok, msg) :: rest => if ok then firstFailure rest else .error msg

/-- A raw profile whose region and image tag are omitted. -/
def rawNoRegionNoTag : RawProfileConfig :=
  { ecr := { region := none, accountID := some "123456789012"
           , repository := some "myrepo", imageTag := none }
  , docker := { imageName := some "myapp" } }

/-- A raw document holding `rawNoRegionNoTag` under both "dev" and
"prod". -/
def rawSampleConfig : RawConfig :=
  { profiles := [("dev", rawNoRegionNoTag), ("prod", rawNoRegionNoTag)] }

/-- `sampleProfile` under the key "dev". -/
def sampleConfig : Config :=
  { profiles := [("dev", sampleProfile)] }

/-- Step outcomes where only the tag step fails. -/
def tagFailOutcome : Step → Bool :=
  fun s => !(s == Step.tag)

/-- `sampleProfile` with the five-digit account id "12345". -/
def badAccountProfile : ProfileConfig :=
  { sampleProfile with
      ecr := { sampleProfile.ecr with accountID := "12345" } }

/-- `badAccountProfile` under the key "dev". -/
def badAccountConfig : Config :=
  { profiles := [("dev", badAccountProfile)] }

end PushEcr

namespace PushEcr

/-- Decoding an entry commutes with `findProfile`: the loaded list holds
each raw entry decoded under its own key. -/
lemma findProfile_map_decode (l : List (String × RawProfileConfig))
    (name : String) (rawP : RawProfileConfig)
    (h : findProfile l name = some rawP) :
    findProfile (l.map fun e => (e.1, decodeProfile e.1 e.2)) name =
      some (decodeProfile name rawP) := by
  induction l with
  | nil => simp [findProfile] at h
  | cons hd tl ih =>
    obtain ⟨k, v⟩ := hd
    by_cases hk : k = name
    · subst hk
      simp [findProfile] at h ⊢
      exact h ▸ rfl
    · simp [findProfile, hk] at h ⊢
      exact ih h

/-- A key found in the front list is found, with the same value, in the
appended list. -/
lemma findProfile_append_of_found {α : Type} (l₁ l₂ : List (String × α))
    (name : String) (v : α) (h : findProfile l₁ name = some v) :
    findProfile (l₁ ++ l₂) name = some v := by
  induction l₁ with
  | nil => simp [findProfile] at h
  | cons hd tl ih =>
    obtain ⟨k, w⟩ := hd
    by_cases hk : k = name
    · subst hk
      simp [findProfile] at h ⊢
      exact h
    · simp [findProfile, hk] at h ⊢
      exact ih h

/-- An entry found in the raw list is found in the loaded configuration,
decoded; the appended viper-materialised "dev" entry is shadowed. -/
lemma findProfile_loadConfig (raw : RawConfig) (name : String)
    (rawP : RawProfileConfig)
    (h : findProfile raw.profiles name = some rawP) :
    findProfile (loadConfig raw).profiles name =
      some (decodeProfile name rawP) := by
  unfold loadConfig
  exact findProfile_append_of_found _ _ name _
    (findProfile_map_decode raw.profiles name rawP h)

/-- C3: a profile present in the document loads as its decoding; under
the key "dev" an omitted region decodes to "us-east-1" and an omitted
image tag to "latest", while under any other key the omitted fields
decode to the zero value "" — no default applies. -/
theorem loadConfig_dev_defaults (raw : RawConfig) (name : String)
    (rawP : RawProfileConfig)
    (h : findProfile raw.profiles name = some rawP) :
    findProfile (loadConfig raw).profiles name =
      some (decodeProfile name rawP) ∧
    (name = "dev" →
      (rawP.ecr.region = none →
        (decodeProfile name rawP).ecr.region = "us-east-1") ∧
      (rawP.ecr.imageTag = none →
        (decodeProfile name rawP).ecr.imageTag = "latest")) ∧
    (name ≠ "dev" →
      (decodeProfile name rawP).ecr.region = rawP.ecr.region.getD "" ∧
      (decodeProfile name rawP).ecr.imageTag =
        rawP.ecr.imageTag.getD "") := by
  refine ⟨findProfile_loadConfig raw name rawP h, ?_, ?_⟩
  · intro hdev
    subst hdev
    constructor
    · intro hr
      simp [decodeProfile, hr]
    · intro ht
      simp [decodeProfile, ht]
  · intro hne
    simp [decodeProfile, hne]

/-- Witness for C3 at a document holding a region-and-tag-less profile
under both "dev" and "prod": "dev" receives the defaults, "prod"
receives the empty string. -/
theorem loadConfig_dev_defaults_witness :
    (findProfile (loadConfig rawSampleConfig).profiles "dev" =
        some (decodeProfile "dev" rawNoRegionNoTag) ∧
      ("dev" = "dev" →
        (rawNoRegionNoTag.ecr.region = none →
          (decodeProfile "dev" rawNoRegionNoTag).ecr.region =
            "us-east-1") ∧
        (rawNoRegionNoTag.ecr.imageTag = none →
          (decodeProfile "dev" rawNoRegionNoTag).ecr.imageTag =
            "latest")) ∧
      ("dev" ≠ "dev" →
        (decodeProfile "dev" rawNoRegionNoTag).ecr.region =
          rawNoRegionNoTag.ecr.region.getD "" ∧
        (decodeProfile "dev" rawNoRegionNoTag).ecr.imageTag =
          rawNoRegionNoTag.ecr.imageTag.getD "")) ∧
    (findProfile (loadConfig rawSampleConfig).profiles "prod" =
        some (decodeProfile "prod" rawNoRegionNoTag) ∧
      ("prod" = "dev" →
        (rawNoRegionNoTag.ecr.region = none →
          (decodeProfile "prod" rawNoRegionNoTag).ecr.region =
            "us-east-1") ∧
        (rawNoRegionNoTag.ecr.imageTag = none →
          (decodeProfile "prod" rawNoRegionNoTag).ecr.imageTag =
            "latest")) ∧
      ("prod" ≠ "dev" →
        (decodeProfile "prod" rawNoRegionNoTag).ecr.region =
          rawNoRegionNoTag.ecr.region.getD "" ∧
        (decodeProfile "prod" rawNoRegionNoTag).ecr.imageTag =
          rawNoRegionNoTag.ecr.imageTag.getD "")) :=
  ⟨loadConfig_dev_defaults rawSampleConfig "dev" rawNoRegionNoTag rfl,
   loadConfig_dev_defaults rawSampleConfig "prod" rawNoRegionNoTag rfl⟩

/-- C6: in a run whose profile is found and validates, where
authenticate and build succeed and tag fails, the trace is exactly
validation, authenticate, build, tag, with exit status 1: authenticate
and build were invoked and push never was. -/
theorem mainRun_tag_failure (cfg : Config) (name : String)
    (outcome : Step → Bool) (p : ProfileConfig)
    (hfind : findProfile cfg.profiles name = some p)
    (hvalid : validateConfig p = .ok ())
    (hauth : outcome .authenticate = true)
    (hbuild : outcome .build = true)
    (htag : outcome .tag = false) :
    mainRun (.ok cfg) name outcome =
      ([Event.validated, .ran .authenticate, .ran .build, .ran .tag],
        1) ∧
    Event.ran .authenticate ∈ (mainRun (.ok cfg) name outcome).1 ∧
    Event.ran .build ∈ (mainRun (.ok cfg) name outcome).1 ∧
    Event.ran .push ∉ (mainRun (.ok cfg) name outcome).1 := by
  have heq : mainRun (.ok cfg) name outcome =
      ([Event.validated, .ran .authenticate, .ran .build, .ran .tag],
        1) := by
    simp [mainRun, hfind, hvalid, stepOrder, runSteps,
      hauth, hbuild, htag]
  refine ⟨heq, ?_, ?_, ?_⟩ <;> rw [heq] <;> simp

/-- Witness for C6: sample profile, outcomes failing only the tag
step. -/
theorem mainRun_tag_failure_witness :
    mainRun (.ok sampleConfig) "dev" tagFailOutcome =
      ([Event.validated, .ran .authenticate, .ran .build, .ran .tag],
        1) ∧
    Event.ran .authenticate ∈
      (mainRun (.ok sampleConfig) "dev" tagFailOutcome).1 ∧
    Event.ran .build ∈
      (mainRun (.ok sampleConfig) "dev" tagFailOutcome).1 ∧
    Event.ran .push ∉
      (mainRun (.ok sampleConfig) "dev" tagFailOutcome).1 :=
  mainRun_tag_failure sampleConfig "dev" tagFailOutcome sampleProfile
    rfl rfl rfl rfl rfl

/-- C7: when the selected profile's account id does not match twelve
digits, validation returns an error and the run stops after the
validator call with exit status 1 — no orchestrator step runs. -/
theorem mainRun_bad_accountId (cfg : Config) (name : String)
    (outcome : Step → Bool) (p : ProfileConfig)
    (hfind : findProfile cfg.profiles name = some p)
    (hmatch : accountIdMatches p.ecr.accountID = false) :
    (∃ e, validateConfig p = .error e ∧ e ≠ "") ∧
    mainRun (.ok cfg) name outcome = ([Event.validated], 1) := by
  have herr : ∃ e, validateConfig p = .error e ∧ e ≠ "" := by
    unfold validateConfig
    split_ifs with h1 h2 h3 h4 h5 <;> simp_all
  refine ⟨herr, ?_⟩
  obtain ⟨e, he, _⟩ := herr
  simp [mainRun, hfind, he]

/-- Witness for C7 at the five-digit account id "12345". -/
theorem mainRun_bad_accountId_witness :
    (∃ e, validateConfig badAccountProfile = .error e ∧ e ≠ "") ∧
    mainRun (.ok badAccountConfig) "dev" tagFailOutcome =
      ([Event.validated], 1) :=
  mainRun_bad_accountId badAccountConfig "dev" tagFailOutcome
    badAccountProfile rfl rfl

/-- C8: when the selected profile name is absent from the loaded
configuration, the run produces no event at all — neither the validator
call nor any step — and exits with status 1. -/
theorem mainRun_profile_missing (cfg : Config) (name : String)
    (outcome : Step → Bool)
    (h : findProfile cfg.profiles name = none) :
    mainRun (.ok cfg) name outcome = ([], 1) := by
  simp [mainRun, h]

/-- Witness for C8 at the name "prod", absent from the sample
configuration. -/
theorem mainRun_profile_missing_witness :
    mainRun (.ok sampleConfig) "prod" tagFailOutcome = ([], 1) :=
  mainRun_profile_missing sampleConfig "prod" tagFailOutcome rfl

end PushEcr

namespace PushEcr

/-- C1: `validateConfig` succeeds exactly when region, account id,
repository and image name are non-empty and the account id consists of
exactly twelve decimal digits. -/
theorem validateConfig_ok_iff (p : ProfileConfig) :
    validateConfig p = .ok () ↔
      (p.ecr.region ≠ "" ∧ p.ecr.accountID ≠ "" ∧
        accountIdMatches p.ecr.accountID = true ∧
        p.ecr.repository ≠ "" ∧ p.docker.imageName ≠ "") := by
  unfold validateConfig
  split_ifs with h1 h2 h3 h4 h5 <;> simp_all

/-- C2: `validateConfig` returns exactly the error of the first failing
check, in the fixed order region, account id non-empty, account id
pattern, repository, image name. -/
theorem validateConfig_eq_firstFailure (p : ProfileConfig) :
    validateConfig p = firstFailure (validationChecks p) := by
  cases hr : p.ecr.region == "" <;>
    cases ha : p.ecr.accountID == "" <;>
      cases hm : accountIdMatches p.ecr.accountID <;>
        cases hrep : p.ecr.repository == "" <;>
          cases hi : p.docker.imageName == "" <;>
            simp [validateConfig, validationChecks, firstFailure,
              hr, ha, hm, hrep, hi]

/-- C4: the tag step's command maps `<image_name>:<image_tag>` to
`<account_id>.dkr.ecr.<region>.amazonaws.com/<repository>:<image_tag>`,
and on the sample profile these are `myapp:latest` and
`123456789012.dkr.ecr.us-east-1.amazonaws.com/myrepo:latest`. -/
theorem tagCommand_spec :
    (∀ p : ProfileConfig,
      tagCommand p =
        ["docker", "tag",
          p.docker.imageName ++ ":" ++ p.ecr.imageTag,
          p.ecr.accountID ++ ".dkr.ecr." ++ p.ecr.region ++
            ".amazonaws.com/" ++ p.ecr.repository ++ ":" ++
            p.ecr.imageTag]) ∧
    tagLocalImage sampleProfile = "myapp:latest" ∧
    tagEcrImage sampleProfile =
      "123456789012.dkr.ecr.us-east-1.amazonaws.com/myrepo:latest" := by
  refine ⟨fun p => rfl, by decide, by decide⟩

/-- C5: the remote reference recomputed by the push step always equals
the remote reference computed by the tag step. -/
theorem pushEcrImage_eq_tagEcrImage (p : ProfileConfig) :
    pushEcrImage p = tagEcrImage p := rfl

/-- C9: the authenticate step targets the host
`<account_id>.dkr.ecr.<region>.amazonaws.com` with the pipeline
`aws ecr get-login-password --region <region> | docker login
--username AWS --password-stdin <host>`. -/
theorem authenticateCommand_spec :
    (∀ e : ECRConfig,
      ecrRepo e = e.accountID ++ ".dkr.ecr." ++ e.region ++
        ".amazonaws.com") ∧
    (∀ e : ECRConfig,
      authenticateCommand e =
        ["sh", "-c",
          "aws ecr get-login-password --region " ++ e.region ++
            " | docker login --username AWS --password-stdin " ++
            ecrRepo e]) ∧
    authenticateCommand sampleProfile.ecr =
      ["sh", "-c",
        "aws ecr get-login-password --region us-east-1 | docker login --username AWS --password-stdin 123456789012.dkr.ecr.us-east-1.amazonaws.com"] := by
  exact ⟨fun e => rfl, fun e => rfl, by decide⟩

/-- C10: `validateConfig` never reads the image tag, so its result is
identical under any two tags; in particular the sample profile with an
empty tag still validates and the tag step then builds the local
reference `myapp:`. -/
theorem validateConfig_ignores_imageTag :
    (∀ (p : ProfileConfig) (t₁ t₂ : String),
      validateConfig { p with ecr := { p.ecr with imageTag := t₁ } } =
        validateConfig { p with ecr := { p.ecr with imageTag := t₂ } }) ∧
    validateConfig
      { sampleProfile with
          ecr := { sampleProfile.ecr with imageTag := "" } } = .ok () ∧
    tagLocalImage
      { sampleProfile with
          ecr := { sampleProfile.ecr with imageTag := "" } } =
      "myapp:" := by
  refine ⟨fun p t₁ t₂ => rfl, rfl, rfl⟩

end PushEcr
